import Mathlib

/-!
The etcd bootstrap orchestrator and its interrupt registry.

A shallow embedding of `pkg/osutil/interrupt_unix.go` and `etcdmain/etcd.go`.

* Package-level mutable variables become fields of an explicit state record.
* Calls into other packages (transport, discovery, etcdserver, os, ioutil,
  json) become fields of an environment record `Env`; every theorem
  quantifies over the environment.
* Observable effects (log lines, listeners opened, closed and served) are
  appended to a chronological trace.
-/

namespace Osutil

/-- The package-level variables of `interrupt_unix.go`, together with the
record of handler invocations.  `interruptRegisterMu` is only ever held for
the duration of one of the atomic steps below, so it carries no state here;
`interruptExitMu` is held across steps and is a field. -/
structure Registry (α : Type) where
  interruptHandlers : List α
  handling : Bool
  exitMuLocked : Bool
  executed : List α
deriving DecidableEq, Repr

/-- The initial values: `interruptHandlers = []InterruptHandler{}`,
`handling = false`, both mutexes unlocked, nothing run. -/
def Registry.init (α : Type) : Registry α :=
  { interruptHandlers := [], handling := false, exitMuLocked := false, executed := [] }

/-- The function `RegisterInterruptHandler(h)`: append under the registration lock. -/
def RegisterInterruptHandler {α : Type} (h : α) (s : Registry α) : Registry α :=
  { s with interruptHandlers := s.interruptHandlers ++ [h] }

/-- Registering a sequence of handlers, first to last. -/
def registerAll {α : Type} (hs : List α) (s : Registry α) : Registry α :=
  hs.foldl (fun acc h => RegisterInterruptHandler h acc) s

/-- The loop `for _, h := range ihs { h() }`: each call is recorded in `executed`. -/
def runHandlers {α : Type} (ihs : List α) (s : Registry α) : Registry α :=
  ihs.foldl (fun acc h => { acc with executed := acc.executed ++ [h] }) s

/-- First lock-delimited block of `XStopEtcd`: copy the list and clear it. -/
def stopSnapshot {α : Type} (s : Registry α) : List α × Registry α :=
  (s.interruptHandlers, { s with interruptHandlers := [] })

/-- Second block of `XStopEtcd`: `interruptExitMu.Lock()`, run the copy,
`interruptExitMu.Unlock()`.  `none` when the lock is held: the caller blocks. -/
def stopRun {α : Type} (ihs : List α) (s : Registry α) : Option (Registry α) :=
  if s.exitMuLocked then none
  else some { runHandlers ihs { s with exitMuLocked := true } with exitMuLocked := false }

/-- The function `XStopEtcd()` run by one thread with no other thread interleaved. -/
def XStopEtcd {α : Type} (s : Registry α) : Option (Registry α) :=
  let r := stopSnapshot s
  stopRun r.1 r.2

/-- First lock-delimited block of the goroutine of `HandleInterrupts`, after
`sig := <-notifier`: copy the list, leaving it in place. -/
def sigSnapshot {α : Type} (s : Registry α) : List α × Registry α :=
  (s.interruptHandlers, s)

/-- Remainder of the goroutine: `interruptExitMu.Lock()`, run the copy, then
`signal.Stop`, and `os.Exit(0)` or `syscall.Kill(pid, sig)`.  The exit lock is
never released.  `none` when the lock is held. -/
def sigRun {α : Type} (ihs : List α) (s : Registry α) : Option (Registry α) :=
  if s.exitMuLocked then none
  else some (runHandlers ihs { s with exitMuLocked := true })

/-- Program counter of the goroutine started by `HandleInterrupts`. -/
inductive SigPc (α : Type) where
  | notStarted
  | waiting
  | signalled
  | snapshotted (ihs : List α)
  | done
deriving DecidableEq, Repr

/-- Program counter of a thread calling `XStopEtcd`. -/
inductive StopPc (α : Type) where
  | called
  | snapshotted (ihs : List α)
  | done
deriving DecidableEq, Repr

/-- The registry together with the signal goroutine and one stopping thread. -/
structure Sys (α : Type) where
  reg : Registry α
  sig : SigPc α
  stop : StopPc α
deriving DecidableEq, Repr

/-- The function `HandleInterrupts()`: returns at once when `handling` is set, otherwise
sets it and starts the goroutine, which waits on `notifier`. -/
def HandleInterrupts {α : Type} (s : Registry α) (g : SigPc α) : Registry α × SigPc α :=
  if s.handling then (s, g)
  else ({ s with handling := true }, SigPc.waiting)

/-- Delivery of SIGINT or SIGTERM to a waiting goroutine. -/
def deliverSignal {α : Type} (g : SigPc α) : SigPc α :=
  match g with
  | SigPc.waiting => SigPc.signalled
  | other => other

/-- The two threads of the system. -/
inductive Thread where
  | signal
  | stop
deriving DecidableEq, Repr

/-- One lock-delimited step of the chosen thread; `none` when that thread is
blocked on `interruptExitMu` or has no step left. -/
def step {α : Type} (t : Thread) (y : Sys α) : Option (Sys α) :=
  match t with
  | Thread.signal =>
    match y.sig with
    | SigPc.signalled =>
      let r := sigSnapshot y.reg
      some { y with reg := r.2, sig := SigPc.snapshotted r.1 }
    | SigPc.snapshotted ihs =>
      match sigRun ihs y.reg with
      | some reg => some { y with reg := reg, sig := SigPc.done }
      | none => none
    | _ => none
  | Thread.stop =>
    match y.stop with
    | StopPc.called =>
      let r := stopSnapshot y.reg
      some { y with reg := r.2, stop := StopPc.snapshotted r.1 }
    | StopPc.snapshotted ihs =>
      match stopRun ihs y.reg with
      | some reg => some { y with reg := reg, stop := StopPc.done }
      | none => none
    | StopPc.done => none

/-- Running a schedule: the threads take their steps in the listed order. -/
def runSchedule {α : Type} : List Thread → Sys α → Option (Sys α)
  | [], y => some y
  | t :: ts, y =>
    match step t y with
    | some y1 => runSchedule ts y1
    | none => none

/-- Handlers `hs` registered, `HandleInterrupts` called, a signal delivered
and `XStopEtcd` called: both triggers fired, no step taken yet. -/
def bothTriggered {α : Type} (hs : List α) : Sys α :=
  let r := HandleInterrupts (registerAll hs (Registry.init α)) SigPc.notStarted
  { reg := r.1, sig := deliverSignal r.2, stop := StopPc.called }

end Osutil

namespace Etcdmain

/-- The type `dirType`, a string. -/
abbrev dirType := String

def dirMember : dirType := "member"

def dirProxy : dirType := "proxy"

def dirEmpty : dirType := "empty"

/-- Error values.  The two sentinels of package `discovery` are compared by
identity in `Main2`; anything else, `fmt.Errorf` results included, is `other`. -/
inductive Error where
  | ErrFullCluster
  | ErrDuplicateID
  | other (msg : String)
deriving DecidableEq, Repr

/-- The parts of `url.URL` read by this file. -/
structure URL where
  Scheme : String
  Host : String
deriving DecidableEq, Repr

/-- Stands for `u.String()`. -/
def URL.toStr (u : URL) : String := u.Scheme ++ "://" ++ u.Host

/-- The type `types.URLsMap`, a Go map from member name to its URLs, as an association
list with at most one entry per name. -/
abbrev URLsMap := List (String × List URL)

/-- The assignment `m[k] = v`. -/
def URLsMap.set (m : URLsMap) (k : String) (v : List URL) : URLsMap :=
  (k, v) :: m.filter (fun e => e.1 ≠ k)

/-- What this file reads of a `transport.TLSInfo`: `Empty()` and its text. -/
structure TLSInfo where
  Empty : Bool
  text : String
deriving DecidableEq, Repr

/-- The fields and methods of `config` used in `etcd.go`.  The methods
`isProxy`, `shouldFallbackToProxy`, `isReadonlyProxy`, `isNewCluster` and
`electionTicks` are defined outside this file and appear as fields. -/
structure config where
  name : String
  dir : String
  durl : String
  dproxy : String
  dnsCluster : String
  initialCluster : String
  initialClusterToken : String
  apurls : List URL
  acurls : List URL
  lpurls : List URL
  lcurls : List URL
  peerTLSInfo : TLSInfo
  clientTLSInfo : TLSInfo
  corsInfo : String
  snapCount : Nat
  maxSnapFiles : Nat
  maxWalFiles : Nat
  forceNewCluster : Bool
  TickMs : Nat
  isProxy : Bool
  shouldFallbackToProxy : Bool
  isReadonlyProxy : Bool
  isNewCluster : Bool
  electionTicks : Nat
deriving DecidableEq, Repr

/-- The struct `etcdserver.ServerConfig` as filled in by `startEtcd` (the transport is
left out). -/
structure ServerConfig where
  Name : String
  ClientURLs : List URL
  PeerURLs : List URL
  DataDir : String
  SnapCount : Nat
  MaxSnapFiles : Nat
  MaxWALFiles : Nat
  InitialPeerURLsMap : URLsMap
  InitialClusterToken : String
  DiscoveryURL : String
  DiscoveryProxy : String
  NewCluster : Bool
  ForceNewCluster : Bool
  TickMs : Nat
  ElectionTicks : Nat
deriving DecidableEq, Repr

/-- Outcome of `fileutil.ReadDir` as `identifyDataDirOrDie` tells them apart. -/
inductive ReadDirResult where
  | ok (names : List String)
  | notExist
  | failed
deriving DecidableEq, Repr

/-- Outcome of `ioutil.ReadFile` as `startProxy` tells them apart. -/
inductive ReadFileResult where
  | ok (b : String)
  | notExist
  | failed (e : Error)
deriving DecidableEq, Repr

/-- Errors of `cfg.Parse`. -/
inductive ParseError where
  | errUnsetAdvertiseClientURLsFlag
  | other (msg : String)
deriving DecidableEq, Repr

/-- What the refresher reads of the `*etcdserver.Cluster` returned by
`GetClusterFromRemotePeers`. -/
structure Cluster where
  Members : List String
  ClientURLs : List String
  PeerURLs : List String
deriving DecidableEq, Repr

/-- Everything `etcd.go` calls in other packages and files.  A Go result
`(v, err)` is a pair whose second component is `none` for a nil error.
Listener factories also receive the position of the URL in its list. -/
structure Env where
  Parse : List String → config × Option ParseError
  errText : Error → String
  parseErrText : ParseError → String
  defaultName : String
  fallbackFlagProxy : String
  initialClusterFromName : String → String
  pathJoin : String → String → String
  ReadDir : String → ReadDirResult
  SRVGetCluster : String → String → String → List URL → String × String × Option Error
  NewURLsMap : String → URLsMap × Option Error
  URLsMapURLs : URLsMap → List String
  GetCluster : String → String → String × Option Error
  NewTimeoutTransport : TLSInfo → Option Error
  NewTransport : TLSInfo → Option Error
  NewTimeoutListener : Nat → URL → Option Error
  NewKeepAliveListener : Nat → URL → Option Error
  NewListener : Nat → URL → Option Error
  NewServer : ServerConfig → Option Error
  MkdirAll : String → Option Error
  ReadFile : String → ReadFileResult
  jsonUnmarshal : String → List String × Option Error
  GetClusterFromRemotePeers : List String → Cluster × Option Error
  jsonMarshal : List String → String × Option Error
  WriteFile : String → String → Option Error
  Rename : String → String → Option Error

/-- Which factory opened a listener. -/
inductive Role where
  | peer
  | client
  | proxy
deriving DecidableEq, Repr

/-- A listener handle: each successful factory call yields a new one, told
apart by the factory and the position of its URL. -/
structure Listener where
  role : Role
  idx : Nat
  url : URL
deriving DecidableEq, Repr

/-- The interrupt handlers `startEtcd` registers: `s.Stop` and the closure
closing every listener of `append(plns, clns...)`. -/
inductive Handler where
  | serverStop
  | closeListeners (ls : List Listener)
deriving DecidableEq, Repr

/-- Observable effects, in the order they happen. -/
inductive Event where
  | log (fmt : String) (args : List String)
  | listen (l : Listener)
  | close (l : Listener)
  | serve (l : Listener)
  | serverStart
deriving DecidableEq, Repr

/-- A function that either returns or terminates the process (`log.Fatal`). -/
inductive OrDie (α : Type) where
  | ret (a : α)
  | fatal
deriving DecidableEq, Repr

/-- The loop of `identifyDataDirOrDie` over the names: the flags `m` and `p`
and the warnings logged. -/
def scanNames (dir : String) : List String → Bool × Bool × List Event → Bool × Bool × List Event
  | [], st => st
  | name :: rest, (m, p, evs) =>
    if name = dirMember then scanNames dir rest (true, p, evs)
    else if name = dirProxy then scanNames dir rest (m, true, evs)
    else scanNames dir rest (m, p, evs ++
      [Event.log "found invalid file/dir %s under data dir %s (Ignore this if you are upgrading etcd)"
        [name, dir]])

/-- The function `identifyDataDirOrDie(dir)`, given what `fileutil.ReadDir(dir)` returned:
the log lines written and the result. -/
def identifyDataDirOrDie (r : ReadDirResult) (dir : String) : List Event × OrDie dirType :=
  match r with
  | ReadDirResult.notExist => ([], OrDie.ret dirEmpty)
  | ReadDirResult.failed => ([Event.log "error listing data dir: %s" [dir]], OrDie.fatal)
  | ReadDirResult.ok names =>
    match scanNames dir names (false, false, []) with
    | (m, p, evs) =>
      if m && p then
        (evs ++ [Event.log "invalid datadir. Both member and proxy directories exist." []],
          OrDie.fatal)
      else if m then (evs, OrDie.ret dirMember)
      else if p then (evs, OrDie.ret dirProxy)
      else (evs, OrDie.ret dirEmpty)

/-- The three named results of `getPeerURLsMapAndToken`; a nil map is `[]`. -/
structure PeerURLsResult where
  urlsmap : URLsMap
  token : String
  err : Option Error
deriving DecidableEq, Repr

/-- The function `getPeerURLsMapAndToken(cfg)`. -/
def getPeerURLsMapAndToken (env : Env) (cfg : config) : PeerURLsResult :=
  if cfg.durl ≠ "" then
    { urlsmap := URLsMap.set [] cfg.name cfg.apurls, token := cfg.durl, err := none }
  else if cfg.dnsCluster ≠ "" then
    match env.SRVGetCluster cfg.name cfg.dnsCluster cfg.initialClusterToken cfg.apurls with
    | (clusterStr, token, err) =>
      if err ≠ none then { urlsmap := [], token := "", err := err }
      else
        let r := env.NewURLsMap clusterStr
        { urlsmap := r.1, token := token, err := r.2 }
  else
    let r := env.NewURLsMap cfg.initialCluster
    { urlsmap := r.1, token := cfg.initialClusterToken, err := r.2 }

/-- State of the listener loops of `startEtcd`: the function-level `err`, the
slice being built, the stack of deferred closures (latest first, each
holding its listener) and the trace. -/
structure ListenerLoop where
  err : Option Error
  lns : List Listener
  defers : List Listener
  events : List Event
deriving DecidableEq, Repr

/-- The line logged when a listener of `startEtcd` is opened. -/
def listenMsg : Role → String
  | Role.peer => "listening for peers on "
  | _ => "listening for client requests on "

/-- The line logged by the deferred closure that closes a listener. -/
def stopMsg : Role → String
  | Role.peer => "stopping listening for peers on "
  | _ => "stopping listening for client requests on "

/-- One `for _, u := range urls` loop of `startEtcd`: open, return on error,
log, defer the conditional close, append. -/
def openListeners (role : Role) (open1 : Nat → URL → Option Error) :
    List URL → Nat → ListenerLoop → ListenerLoop
  | [], _, st => st
  | u :: us, i, st =>
    match open1 i u with
    | some e => { st with err := some e }
    | none =>
      let l : Listener := { role := role, idx := i, url := u }
      openListeners role open1 us (i + 1)
        { err := none, lns := st.lns ++ [l], defers := l :: st.defers,
          events := st.events ++ [Event.listen l, Event.log (listenMsg role) [u.toStr]] }

/-- The deferred closures run when `startEtcd` returns, latest first; each
tests the function-level `err` and closes its listener when it is non-nil. -/
def runDefers (err : Option Error) : List Listener → List Event → List Event
  | [], evs => evs
  | l :: ds, evs =>
    if err ≠ none then
      runDefers err ds (evs ++ [Event.close l, Event.log (stopMsg l.role) [l.url.toStr]])
    else runDefers err ds evs

/-- The channel returned by `s.StopNotify()`. -/
inductive StopChan where
  | stopNotify
deriving DecidableEq, Repr

/-- What a call of `startEtcd` returns and does: its two results, its trace
and the interrupt registry after it. -/
structure EtcdResult where
  stopped : Option StopChan
  err : Option Error
  events : List Event
  reg : Osutil.Registry Handler
deriving DecidableEq, Repr

/-- The `etcdserver.ServerConfig` literal of `startEtcd`. -/
def serverConfig (cfg : config) (urlsmap : URLsMap) (token : String) : ServerConfig :=
  { Name := cfg.name, ClientURLs := cfg.acurls, PeerURLs := cfg.apurls, DataDir := cfg.dir,
    SnapCount := cfg.snapCount, MaxSnapFiles := cfg.maxSnapFiles, MaxWALFiles := cfg.maxWalFiles,
    InitialPeerURLsMap := urlsmap, InitialClusterToken := token, DiscoveryURL := cfg.durl,
    DiscoveryProxy := cfg.dproxy, NewCluster := cfg.isNewCluster,
    ForceNewCluster := cfg.forceNewCluster, TickMs := cfg.TickMs,
    ElectionTicks := cfg.electionTicks }

/-- The line `startEtcd` logs for a TLS setting that is not empty. -/
def tlsLog (fmt : String) (info : TLSInfo) : List Event :=
  if info.Empty then [] else [Event.log fmt [info.text]]

/-- The part of `startEtcd` from `srvcfg := ...` to its end, after both listener loops:
the server is built and started, `s.Stop` is registered, the listeners are
served and the closure closing them is registered. -/
def startEtcdServer (env : Env) (cfg : config) (r : PeerURLsResult)
    (reg : Osutil.Registry Handler) (ps cs : ListenerLoop) : EtcdResult :=
  match env.NewServer (serverConfig cfg r.urlsmap r.token) with
  | some e =>
    { stopped := none, err := some e, events := runDefers (some e) cs.defers cs.events,
      reg := reg }
  | none =>
    let ev2 : List Event := cs.events ++ [Event.serverStart] ++
      (if cfg.corsInfo ≠ "" then [Event.log "cors = %s" [cfg.corsInfo]] else []) ++
      ps.lns.map Event.serve ++ cs.lns.map Event.serve
    { stopped := some StopChan.stopNotify, err := none,
      events := runDefers none cs.defers ev2,
      reg := Osutil.RegisterInterruptHandler (Handler.closeListeners (ps.lns ++ cs.lns))
        (Osutil.RegisterInterruptHandler Handler.serverStop reg) }

/-- The part of `startEtcd` from the client listener loop on, after the peer loop. -/
def startEtcdClients (env : Env) (cfg : config) (r : PeerURLsResult)
    (reg : Osutil.Registry Handler) (ps : ListenerLoop) : EtcdResult :=
  let cs := openListeners Role.client env.NewKeepAliveListener cfg.lcurls 0
    { err := none, lns := [], defers := ps.defers,
      events := ps.events ++ tlsLog "clientTLS: %s" cfg.clientTLSInfo }
  match cs.err with
  | some e =>
    { stopped := none, err := some e, events := runDefers (some e) cs.defers cs.events,
      reg := reg }
  | none => startEtcdServer env cfg r reg ps cs

/-- The part of `startEtcd` from the peer listener loop on. -/
def startEtcdPeers (env : Env) (cfg : config) (r : PeerURLsResult)
    (reg : Osutil.Registry Handler) : EtcdResult :=
  let ps := openListeners Role.peer env.NewTimeoutListener cfg.lpurls 0
    { err := none, lns := [], defers := [], events := tlsLog "peerTLS: %s" cfg.peerTLSInfo }
  match ps.err with
  | some e =>
    { stopped := none, err := some e, events := runDefers (some e) ps.defers ps.events,
      reg := reg }
  | none => startEtcdClients env cfg r reg ps

/-- The function `startEtcd(cfg)`. -/
def startEtcd (env : Env) (cfg : config) (reg : Osutil.Registry Handler) : EtcdResult :=
  let r := getPeerURLsMapAndToken env cfg
  match r.err with
  | some e =>
    { stopped := none,
      err := some (Error.other ("error setting up initial cluster: " ++ env.errText e)),
      events := [], reg := reg }
  | none =>
    match env.NewTimeoutTransport cfg.peerTLSInfo with
    | some e => { stopped := none, err := some e, events := [], reg := reg }
    | none => startEtcdPeers env cfg r reg

/-- The variables captured by the closure `uf` of `startProxy`. -/
structure ProxyState where
  clusterfile : String
  peerURLs : List String
  clientURLs : List String
deriving DecidableEq, Repr

/-- One invocation of `uf`: the slice returned, the captured variables
afterwards and the lines logged. -/
structure UfResult where
  ret : List String
  st : ProxyState
  events : List Event
deriving DecidableEq, Repr

/-- The closure `uf` of `startProxy`. -/
def uf (env : Env) (st : ProxyState) : UfResult :=
  match env.GetClusterFromRemotePeers st.peerURLs with
  | (_, some e) => { ret := [], st := st, events := [Event.log "proxy: %v" [env.errText e]] }
  | (gcls, none) =>
    if gcls.Members.length = 0 then { ret := st.clientURLs, st := st, events := [] }
    else
      let st1 : ProxyState := { st with clientURLs := gcls.ClientURLs }
      match env.jsonMarshal gcls.PeerURLs with
      | (_, some e) =>
        { ret := st1.clientURLs, st := st1,
          events := [Event.log "proxy: error on marshal peer urls %s" [env.errText e]] }
      | (b, none) =>
        match env.WriteFile (st.clusterfile ++ ".bak") b with
        | some e =>
          { ret := st1.clientURLs, st := st1,
            events := [Event.log "proxy: error on writing urls %s" [env.errText e]] }
        | none =>
          match env.Rename (st.clusterfile ++ ".bak") st.clusterfile with
          | some e =>
            { ret := st1.clientURLs, st := st1,
              events := [Event.log "proxy: error on updating clusterfile %s" [env.errText e]] }
          | none =>
            { ret := st1.clientURLs, st := { st1 with peerURLs := gcls.PeerURLs },
              events :=
                if gcls.PeerURLs ≠ st.peerURLs then
                  [Event.log "proxy: updated peer urls in cluster file from %v to %v"
                    (st.peerURLs ++ gcls.PeerURLs)]
                else [] }

/-- The listener loop of `startProxy`: open, return on error, otherwise start
the goroutine serving the listener. -/
def proxyListeners (open1 : Nat → URL → Option Error) :
    List URL → Nat → List Event → Option Error × List Event
  | [], _, evs => (none, evs)
  | u :: us, i, evs =>
    match open1 i u with
    | some e => (some e, evs)
    | none =>
      let l : Listener := { role := Role.proxy, idx := i, url := u }
      proxyListeners open1 us (i + 1)
        (evs ++ [Event.listen l, Event.serve l,
          Event.log "proxy: listening for client requests on " [u.Host]])

/-- What a call of `startProxy` returns and does: the error, `*cfg` afterwards
(the function assigns `cfg.dir`), the trace, and the variables of `uf` once
the closure exists. -/
structure ProxyResult where
  err : Option Error
  cfg : config
  events : List Event
  refresher : Option ProxyState
deriving DecidableEq, Repr

/-- The function `startProxy(cfg)`. -/
def startProxy (env : Env) (cfg : config) : ProxyResult :=
  let r := getPeerURLsMapAndToken env cfg
  match r.err with
  | some e =>
    { err := some (Error.other ("error setting up initial cluster: " ++ env.errText e)),
      cfg := cfg, events := [], refresher := none }
  | none =>
    let d : URLsMap × Option Error :=
      if cfg.durl ≠ "" then
        match env.GetCluster cfg.durl cfg.dproxy with
        | (_, some e) => (r.urlsmap, some e)
        | (s, none) => env.NewURLsMap s
      else (r.urlsmap, none)
    match d with
    | (_, some e) => { err := some e, cfg := cfg, events := [], refresher := none }
    | (urlsmap, none) =>
      match env.NewTransport cfg.clientTLSInfo with
      | some e => { err := some e, cfg := cfg, events := [], refresher := none }
      | none =>
        match env.NewTransport cfg.peerTLSInfo with
        | some e => { err := some e, cfg := cfg, events := [], refresher := none }
        | none =>
          let cfg1 : config := { cfg with dir := env.pathJoin cfg.dir "proxy" }
          match env.MkdirAll cfg1.dir with
          | some e => { err := some e, cfg := cfg1, events := [], refresher := none }
          | none =>
            let clusterfile := env.pathJoin cfg1.dir "cluster"
            let seed : Option Error × List String × List Event :=
              match env.ReadFile clusterfile with
              | ReadFileResult.ok b =>
                match env.jsonUnmarshal b with
                | (_, some e) => (some e, [], [])
                | (urls, none) =>
                  (none, urls,
                    [Event.log "proxy: using peer urls %v from cluster file ./%s"
                      (urls ++ [clusterfile])])
              | ReadFileResult.notExist =>
                (none, env.URLsMapURLs urlsmap,
                  [Event.log "proxy: using peer urls %v " (env.URLsMapURLs urlsmap)])
              | ReadFileResult.failed e => (some e, [], [])
            match seed with
            | (some e, _, _) => { err := some e, cfg := cfg1, events := [], refresher := none }
            | (none, peerURLs, ev0) =>
              let st : ProxyState :=
                { clusterfile := clusterfile, peerURLs := peerURLs, clientURLs := [] }
              let ls := proxyListeners env.NewListener cfg1.lcurls 0 ev0
              { err := ls.1, cfg := cfg1, events := ls.2, refresher := some st }

/-- The two start-up functions `Main2` may call. -/
inductive Fn where
  | startEtcd
  | startProxy
deriving DecidableEq, Repr

/-- How a call of `Main2` ends: the process exits with a status, or `Main2`
has called `osutil.HandleInterrupts()` and waits on `<-stopped` (on a nil
channel, `none`, for ever). -/
inductive Outcome where
  | exit (code : Nat)
  | waiting (stopped : Option StopChan)
deriving DecidableEq, Repr

/-- The process state `Main2` works on: the interrupt registry and its signal
goroutine, the trace, and the start-up functions entered so far. -/
structure Proc where
  reg : Osutil.Registry Handler
  sig : Osutil.SigPc Handler
  trace : List Event
  calls : List Fn
deriving DecidableEq, Repr

/-- The state of a process that has just started. -/
def Proc.init : Proc :=
  { reg := Osutil.Registry.init Handler, sig := Osutil.SigPc.notStarted, trace := [], calls := [] }

/-- The variables of `Main2` after its start-up block. -/
structure Started where
  stopped : Option StopChan
  err : Option Error
  cfg : config
  proc : Proc
deriving DecidableEq, Repr

/-- The adjustments `Main2` makes to a parsed configuration: the initial
cluster follows a non-default name, and an empty data dir gets its default. -/
def adjustConfig (env : Env) (cfg : config) : config × List Event :=
  let cfg1 : config :=
    if cfg.name ≠ env.defaultName ∧
        cfg.initialCluster = env.initialClusterFromName env.defaultName then
      { cfg with initialCluster := env.initialClusterFromName cfg.name }
    else cfg
  if cfg1.dir = "" then
    ({ cfg1 with dir := cfg1.name ++ ".etcd" },
      [Event.log "no data-dir provided, using default data-dir ./%s" [cfg1.name ++ ".etcd"]])
  else (cfg1, [])

/-- The start-up block of `Main2`, from `shouldProxy := ...` to the call of
`startProxy`; `err` is nil on entry. -/
def startUp (env : Env) (cfg : config) (which : dirType) (p : Proc) : Started :=
  let shouldProxy : Bool := cfg.isProxy || decide (which = dirProxy)
  let a : Bool × Started :=
    if shouldProxy = false then
      let r := startEtcd env cfg p.reg
      let p1 : Proc :=
        { p with reg := r.reg, trace := p.trace ++ r.events, calls := p.calls ++ [Fn.startEtcd] }
      if r.err = some Error.ErrFullCluster ∧ cfg.shouldFallbackToProxy = true then
        (true, { stopped := r.stopped, err := r.err, cfg := cfg,
                 proc := { p1 with trace := p1.trace ++
                   [Event.log "discovery cluster full, falling back to %s"
                     [env.fallbackFlagProxy]] } })
      else (false, { stopped := r.stopped, err := r.err, cfg := cfg, proc := p1 })
    else (true, { stopped := none, err := none, cfg := cfg, proc := p })
  if a.1 = true then
    let r := startProxy env a.2.cfg
    { stopped := a.2.stopped, err := r.err, cfg := r.cfg,
      proc := { a.2.proc with trace := a.2.proc.trace ++ r.events,
                              calls := a.2.proc.calls ++ [Fn.startProxy] } }
  else a.2

/-- The four lines `Main2` logs for `discovery.ErrDuplicateID`. -/
def duplicateIDGuidance (cfg : config) : List Event :=
  [Event.log "member %q has previously registered with discovery service token (%s)."
     [cfg.name, cfg.durl],
   Event.log "But etcd could not find vaild cluster configuration in the given data dir (%s)."
     [cfg.dir],
   Event.log "Please check the given data dir path if the previous bootstrap succeeded" [],
   Event.log "or use a new discovery token if the previous bootstrap failed." []]

/-- The call `osutil.HandleInterrupts()` followed by `<-stopped`. -/
def handleAndWait (s : Started) (p : Proc) : Outcome × Proc :=
  let h := Osutil.HandleInterrupts p.reg p.sig
  (Outcome.waiting s.stopped, { p with reg := h.1, sig := h.2 })

/-- The end of `Main2`, from `if err != nil` on: the `switch err` has a case
for `discovery.ErrDuplicateID`, which logs, and a default, `log.Fatalf`. -/
def finish (env : Env) (s : Started) : Outcome × Proc :=
  match s.err with
  | none => handleAndWait s s.proc
  | some Error.ErrDuplicateID =>
    handleAndWait s { s.proc with trace := s.proc.trace ++ duplicateIDGuidance s.cfg }
  | some e =>
    (Outcome.exit 1, { s.proc with trace := s.proc.trace ++ [Event.log "%v" [env.errText e]] })

/-- The function `Main2(args)`.  `setupLogging` only sets log levels and is left out. -/
def Main2 (env : Env) (args : List String) (p : Proc) : Outcome × Proc :=
  match env.Parse args with
  | (_, some e) =>
    (Outcome.exit 1,
      { p with trace := p.trace ++
          [Event.log "error verifying flags, %v. See 'etcd -help'." [env.parseErrText e]] ++
          (if e = ParseError.errUnsetAdvertiseClientURLsFlag then
            [Event.log ("When listening on specific address(es), this etcd process must " ++
              "advertise accessible url(s) to each connected client.") []]
           else []) })
  | (cfg0, none) =>
    let c := adjustConfig env cfg0
    match identifyDataDirOrDie (env.ReadDir c.1.dir) c.1.dir with
    | (evs, OrDie.fatal) => (Outcome.exit 1, { p with trace := p.trace ++ c.2 ++ evs })
    | (evs, OrDie.ret which) =>
      let ev : List Event :=
        if which ≠ dirEmpty then
          [Event.log "already initialized as %v before, starting as etcd %v..." [which, which]]
        else []
      finish env (startUp env c.1 which { p with trace := p.trace ++ c.2 ++ evs ++ ev })

/-- Replaying a trace on the set of open listeners. -/
def stillOpen : List Event → List Listener → List Listener
  | [], o => o
  | Event.listen l :: es, o => stillOpen es (o ++ [l])
  | Event.close l :: es, o => stillOpen es (o.filter (fun x => x ≠ l))
  | _ :: es, o => stillOpen es o

/-- The listeners a trace opens, in order. -/
def listens : List Event → List Listener
  | [] => []
  | Event.listen l :: es => l :: listens es
  | _ :: es => listens es

/-- The listeners a trace closes, in order. -/
def closes : List Event → List Listener
  | [] => []
  | Event.close l :: es => l :: closes es
  | _ :: es => closes es

/-- Whether persisting the peer URLs of `gcls` fails in `uf`: at
`json.Marshal`, at `ioutil.WriteFile` or at `os.Rename`. -/
def persistenceFault (env : Env) (clusterfile : String) (gcls : Cluster) : Bool :=
  match env.jsonMarshal gcls.PeerURLs with
  | (_, some _) => true
  | (b, none) =>
    match env.WriteFile (clusterfile ++ ".bak") b with
    | some _ => true
    | none => (env.Rename (clusterfile ++ ".bak") clusterfile).isSome

/-- A sample configuration: a member named `infra0` with one peer and one
client address. -/
def sampleConfig : config :=
  { name := "infra0", dir := "infra0.etcd", durl := "", dproxy := "", dnsCluster := "",
    initialCluster := "infra0=http://10.0.0.1:2380", initialClusterToken := "etcd-cluster",
    apurls := [{ Scheme := "http", Host := "10.0.0.1:2380" }],
    acurls := [{ Scheme := "http", Host := "10.0.0.1:2379" }],
    lpurls := [{ Scheme := "http", Host := "10.0.0.1:2380" }],
    lcurls := [{ Scheme := "http", Host := "10.0.0.1:2379" }],
    peerTLSInfo := { Empty := true, text := "" },
    clientTLSInfo := { Empty := true, text := "" },
    corsInfo := "", snapCount := 10000, maxSnapFiles := 5, maxWalFiles := 5,
    forceNewCluster := false, TickMs := 100, isProxy := false,
    shouldFallbackToProxy := false, isReadonlyProxy := false, isNewCluster := true,
    electionTicks := 10 }

/-- A sample environment in which every call succeeds: the data dir does not
exist, there is no cluster file, and the remote peers report one member. -/
def sampleEnv : Env :=
  { Parse := fun _ => (sampleConfig, none),
    errText := fun e =>
      match e with
      | Error.ErrFullCluster => "ErrFullCluster"
      | Error.ErrDuplicateID => "ErrDuplicateID"
      | Error.other msg => msg,
    parseErrText := fun e =>
      match e with
      | ParseError.errUnsetAdvertiseClientURLsFlag => "errUnsetAdvertiseClientURLsFlag"
      | ParseError.other msg => msg,
    defaultName := "default",
    fallbackFlagProxy := "proxy",
    initialClusterFromName := fun n => n ++ "=http://localhost:2380",
    pathJoin := fun a b => a ++ "/" ++ b,
    ReadDir := fun _ => ReadDirResult.notExist,
    SRVGetCluster := fun _ _ tok _ => ("", tok, none),
    NewURLsMap := fun _ => ([("infra0", [{ Scheme := "http", Host := "10.0.0.1:2380" }])], none),
    URLsMapURLs := fun m => m.flatMap (fun e => e.2.map URL.toStr),
    GetCluster := fun _ _ => ("infra0=http://10.0.0.1:2380", none),
    NewTimeoutTransport := fun _ => none,
    NewTransport := fun _ => none,
    NewTimeoutListener := fun _ _ => none,
    NewKeepAliveListener := fun _ _ => none,
    NewListener := fun _ _ => none,
    NewServer := fun _ => none,
    MkdirAll := fun _ => none,
    ReadFile := fun _ => ReadFileResult.notExist,
    jsonUnmarshal := fun _ => ([], none),
    GetClusterFromRemotePeers := fun _ =>
      ({ Members := ["infra0"], ClientURLs := ["http://10.0.0.1:2379"],
         PeerURLs := ["http://10.0.0.1:2380"] }, none),
    jsonMarshal := fun urls => (String.intercalate "," urls, none),
    WriteFile := fun _ _ => none,
    Rename := fun _ _ => none }

end Etcdmain

namespace Etcdmain

/-- The variables of `uf` in a proxy that has refreshed once before. -/
def sampleProxyState : ProxyState :=
  { clusterfile := "infra0.etcd/proxy/cluster", peerURLs := ["http://10.0.0.1:2380"],
    clientURLs := ["http://10.0.0.1:2379"] }

/-- The sample environment with the remote peers unreachable. -/
def unreachableEnv : Env :=
  { sampleEnv with
    GetClusterFromRemotePeers := fun _ =>
      ({ Members := [], ClientURLs := [], PeerURLs := [] },
        some (Error.other "etcdserver: could not retrieve cluster information from the given urls")) }

/-- The sample environment with a second member reported by the peers and
`os.Rename` failing. -/
def renameFailsEnv : Env :=
  { sampleEnv with
    GetClusterFromRemotePeers := fun _ =>
      ({ Members := ["infra0", "infra1"],
         ClientURLs := ["http://10.0.0.1:2379", "http://10.0.0.2:2379"],
         PeerURLs := ["http://10.0.0.1:2380", "http://10.0.0.2:2380"] }, none),
    Rename := fun _ _ => some (Error.other "rename: permission denied") }

/-- A proxy configuration with two client listen addresses. -/
def twoClientConfig : config :=
  { sampleConfig with
    isProxy := true,
    lcurls := [{ Scheme := "http", Host := "127.0.0.1:2379" },
               { Scheme := "http", Host := "127.0.0.1:4001" }] }

/-- The sample environment in which the second `transport.NewListener` call
of the proxy fails. -/
def secondListenerFailsEnv : Env :=
  { sampleEnv with
    Parse := fun _ => (twoClientConfig, none),
    NewListener := fun i _ =>
      if i = 1 then some (Error.other "listen tcp 127.0.0.1:4001: bind: address already in use")
      else none }

/-- A member configuration with three peer listen addresses. -/
def threePeerConfig : config :=
  { sampleConfig with
    lpurls := [{ Scheme := "http", Host := "10.0.0.1:2380" },
               { Scheme := "http", Host := "10.0.0.1:7001" },
               { Scheme := "http", Host := "10.0.0.1:7002" }] }

/-- The sample environment in which the second peer listener fails to bind. -/
def secondPeerFailsEnv : Env :=
  { sampleEnv with
    NewTimeoutListener := fun i _ =>
      if i = 1 then some (Error.other "listen tcp 10.0.0.1:7001: bind: address already in use")
      else none }

/-- A member configuration bootstrapping through a discovery token. -/
def discoveryConfig : config :=
  { sampleConfig with durl := "https://discovery.etcd.io/3e86b59982e4" }

/-- The sample environment in which the discovery service has seen this
member before: `etcdserver.NewServer` returns `discovery.ErrDuplicateID`. -/
def duplicateIDEnv : Env :=
  { sampleEnv with
    Parse := fun _ => (discoveryConfig, none),
    NewServer := fun _ => some Error.ErrDuplicateID }

end Etcdmain

namespace Osutil

theorem registerAll_eq {α : Type} (hs : List α) (s : Registry α) :
    registerAll hs s = { s with interruptHandlers := s.interruptHandlers ++ hs } := by
  induction hs generalizing s with
  | nil => simp [registerAll]
  | cons h t ih =>
    have step1 : registerAll (h :: t) s = registerAll t (RegisterInterruptHandler h s) := rfl
    rw [step1, ih]
    simp [RegisterInterruptHandler]

theorem runHandlers_eq {α : Type} (ihs : List α) (s : Registry α) :
    runHandlers ihs s = { s with executed := s.executed ++ ihs } := by
  induction ihs generalizing s with
  | nil => simp [runHandlers]
  | cons h t ih =>
    have step1 : runHandlers (h :: t) s = runHandlers t { s with executed := s.executed ++ [h] } :=
      rfl
    rw [step1, ih]
    simp

/-- C9: from the initial registry, after registering `hs` in order, `XStopEtcd`
returns, has invoked exactly `hs` in registration order and has left the
handler list empty; a second `XStopEtcd` returns and invokes nothing more. -/
theorem XStopEtcd_runs_registered_once {α : Type} (hs : List α) :
    XStopEtcd (registerAll hs (Registry.init α)) =
        some { interruptHandlers := [], handling := false, exitMuLocked := false,
               executed := hs } ∧
      XStopEtcd ({ interruptHandlers := [], handling := false, exitMuLocked := false,
                   executed := hs } : Registry α) =
        some { interruptHandlers := [], handling := false, exitMuLocked := false,
               executed := hs } := by
  constructor
  · rw [registerAll_eq]
    simp [XStopEtcd, stopSnapshot, stopRun, runHandlers_eq, Registry.init]
  · simp [XStopEtcd, stopSnapshot, stopRun, runHandlers_eq]

/-- C8: with handlers 1, 2, 3 registered and both triggers fired, the schedule
in which the signal goroutine copies the list, `XStopEtcd` copies and clears
it and runs its copy, and the goroutine then runs its own copy, executes every
handler twice. -/
theorem signal_then_stop_runs_handlers_twice :
    (runSchedule [Thread.signal, Thread.stop, Thread.stop, Thread.signal]
        (bothTriggered [1, 2, 3])).map (fun y => y.reg.executed) =
      some [1, 2, 3, 1, 2, 3] := by
  decide

end Osutil

namespace Etcdmain

theorem scanNames_flags (dir : String) (names : List String) (m p : Bool) (evs : List Event) :
    (scanNames dir names (m, p, evs)).1 = (m || decide (dirMember ∈ names)) ∧
      (scanNames dir names (m, p, evs)).2.1 = (p || decide (dirProxy ∈ names)) := by
  induction names generalizing m p evs with
  | nil => simp [scanNames]
  | cons n rest ih =>
    have hmp : dirMember ≠ dirProxy := by decide
    by_cases h1 : n = dirMember
    · subst h1
      simp [scanNames, ih, hmp.symm]
    · by_cases h2 : n = dirProxy
      · subst h2
        simp [scanNames, ih, hmp, h1]
      · have h1a : ¬ dirMember = n := fun h => h1 h.symm
        have h2a : ¬ dirProxy = n := fun h => h2 h.symm
        simp [scanNames, ih, h1, h2, h1a, h2a]

theorem identify_ok (dir : String) (names : List String) :
    (identifyDataDirOrDie (ReadDirResult.ok names) dir).2 =
      if dirMember ∈ names ∧ dirProxy ∈ names then OrDie.fatal
      else if dirMember ∈ names then OrDie.ret dirMember
      else if dirProxy ∈ names then OrDie.ret dirProxy
      else OrDie.ret dirEmpty := by
  have h := scanNames_flags dir names false false []
  rcases hs : scanNames dir names (false, false, []) with ⟨m, p, evs⟩
  rw [hs] at h
  simp only [Bool.false_or] at h
  obtain ⟨hm, hp⟩ := h
  simp only [identifyDataDirOrDie, hs]
  subst hm
  subst hp
  by_cases a : dirMember ∈ names <;> by_cases b : dirProxy ∈ names <;> simp [a, b]

/-- C1: for a listing `names` of the data dir, `identifyDataDirOrDie` returns
`dirProxy` iff "proxy" is listed and "member" is not, `dirMember` iff "member"
is listed and "proxy" is not, `dirEmpty` iff neither is listed, and dies iff
both are; dropping every other name leaves the result as it is; a missing
directory gives `dirEmpty`. -/
theorem identifyDataDirOrDie_classifies (dir : String) (names : List String) :
    ((identifyDataDirOrDie (ReadDirResult.ok names) dir).2 = OrDie.ret dirProxy ↔
        "proxy" ∈ names ∧ "member" ∉ names) ∧
      ((identifyDataDirOrDie (ReadDirResult.ok names) dir).2 = OrDie.ret dirMember ↔
        "member" ∈ names ∧ "proxy" ∉ names) ∧
      ((identifyDataDirOrDie (ReadDirResult.ok names) dir).2 = OrDie.ret dirEmpty ↔
        "member" ∉ names ∧ "proxy" ∉ names) ∧
      ((identifyDataDirOrDie (ReadDirResult.ok names) dir).2 = OrDie.fatal ↔
        "member" ∈ names ∧ "proxy" ∈ names) ∧
      (identifyDataDirOrDie
          (ReadDirResult.ok (names.filter (fun n => n = "member" ∨ n = "proxy"))) dir).2 =
        (identifyDataDirOrDie (ReadDirResult.ok names) dir).2 ∧
      (identifyDataDirOrDie ReadDirResult.notExist dir).2 = OrDie.ret dirEmpty := by
  have hmp : dirMember ≠ dirProxy := by decide
  have hme : dirMember ≠ dirEmpty := by decide
  have hpe : dirProxy ≠ dirEmpty := by decide
  have hM : ("member" : String) = dirMember := rfl
  have hP : ("proxy" : String) = dirProxy := rfl
  rw [hM, hP]
  refine ⟨?_, ?_, ?_, ?_, ?_, rfl⟩
  · rw [identify_ok]
    by_cases a : dirMember ∈ names <;> by_cases b : dirProxy ∈ names <;>
      simp [a, b, hmp, hme, hpe, hmp.symm, hme.symm, hpe.symm]
  · rw [identify_ok]
    by_cases a : dirMember ∈ names <;> by_cases b : dirProxy ∈ names <;>
      simp [a, b, hmp, hme, hpe, hmp.symm, hme.symm, hpe.symm]
  · rw [identify_ok]
    by_cases a : dirMember ∈ names <;> by_cases b : dirProxy ∈ names <;>
      simp [a, b, hmp, hme, hpe, hmp.symm, hme.symm, hpe.symm]
  · rw [identify_ok]
    by_cases a : dirMember ∈ names <;> by_cases b : dirProxy ∈ names <;>
      simp [a, b, hmp, hme, hpe, hmp.symm, hme.symm, hpe.symm]
  · rw [identify_ok, identify_ok]
    simp [List.mem_filter]

/-- C10: when the discovery token `durl` is non-empty, `getPeerURLsMapAndToken`
returns a nil error, the map whose single entry sends this node's name to its
advertised peer URLs, and the token `durl`, whatever the environment and the
DNS and static settings are. -/
theorem getPeerURLsMapAndToken_discovery (env : Env) (cfg : config) (h : cfg.durl ≠ "") :
    getPeerURLsMapAndToken env cfg =
      { urlsmap := [(cfg.name, cfg.apurls)], token := cfg.durl, err := none } := by
  simp [getPeerURLsMapAndToken, h, URLsMap.set]

theorem getPeerURLsMapAndToken_discovery_witness :
    ({ sampleConfig with durl := "https://discovery.etcd.io/3e86b59982e4",
                         dnsCluster := "example.com" } : config).durl ≠ "" ∧
      getPeerURLsMapAndToken sampleEnv
          { sampleConfig with durl := "https://discovery.etcd.io/3e86b59982e4",
                              dnsCluster := "example.com" } =
        { urlsmap := [("infra0", [{ Scheme := "http", Host := "10.0.0.1:2380" }])],
          token := "https://discovery.etcd.io/3e86b59982e4", err := none } :=
  ⟨by decide, getPeerURLsMapAndToken_discovery sampleEnv _ (by decide)⟩

end Etcdmain

namespace Etcdmain

/-- C2 as stated fails: with a previous client-URL set of one URL and the
remote peers unreachable, `uf` returns the empty slice, not the previous set. -/
theorem uf_query_failure_does_not_return_previous :
    (unreachableEnv.GetClusterFromRemotePeers sampleProxyState.peerURLs).2 ≠ none ∧
      sampleProxyState.clientURLs = ["http://10.0.0.1:2379"] ∧
      (uf unreachableEnv sampleProxyState).ret = [] ∧
      (uf unreachableEnv sampleProxyState).ret ≠ sampleProxyState.clientURLs := by
  decide

/-- C2, amended: when `GetClusterFromRemotePeers` fails, `uf` returns the empty
slice and leaves its captured variables, the client URLs and the peer URLs,
as they were. -/
theorem uf_query_failure (env : Env) (st : ProxyState) (e : Error)
    (h : (env.GetClusterFromRemotePeers st.peerURLs).2 = some e) :
    (uf env st).ret = [] ∧ (uf env st).st.clientURLs = st.clientURLs ∧
      (uf env st).st.peerURLs = st.peerURLs := by
  rcases hq : env.GetClusterFromRemotePeers st.peerURLs with ⟨gcls, err⟩
  rw [hq] at h
  simp only at h
  subst h
  simp [uf, hq]

theorem uf_query_failure_witness :
    (unreachableEnv.GetClusterFromRemotePeers sampleProxyState.peerURLs).2 =
        some (Error.other
          "etcdserver: could not retrieve cluster information from the given urls") ∧
      ((uf unreachableEnv sampleProxyState).ret = [] ∧
        (uf unreachableEnv sampleProxyState).st.clientURLs = sampleProxyState.clientURLs ∧
        (uf unreachableEnv sampleProxyState).st.peerURLs = sampleProxyState.peerURLs) :=
  ⟨rfl, uf_query_failure unreachableEnv sampleProxyState _ rfl⟩

/-- C3 as stated fails: the peers report two members and `os.Rename` fails;
the client URLs held and returned by `uf` are the new ones, not the previous. -/
theorem uf_rename_failure_does_not_keep_client_urls :
    (renameFailsEnv.GetClusterFromRemotePeers sampleProxyState.peerURLs).2 = none ∧
      (renameFailsEnv.GetClusterFromRemotePeers sampleProxyState.peerURLs).1.Members.length = 2 ∧
      persistenceFault renameFailsEnv sampleProxyState.clusterfile
        (renameFailsEnv.GetClusterFromRemotePeers sampleProxyState.peerURLs).1 = true ∧
      (uf renameFailsEnv sampleProxyState).st.clientURLs =
        ["http://10.0.0.1:2379", "http://10.0.0.2:2379"] ∧
      (uf renameFailsEnv sampleProxyState).st.clientURLs ≠ sampleProxyState.clientURLs ∧
      (uf renameFailsEnv sampleProxyState).ret ≠ sampleProxyState.clientURLs := by
  decide

/-- C3, amended: when the query succeeds with at least one member and
persisting the peer URLs fails (marshal, write or rename), the client URLs
held and returned by `uf` are those just reported by the cluster, and the
peer URLs held are the previous ones. -/
theorem uf_persistence_fault (env : Env) (st : ProxyState)
    (hq : (env.GetClusterFromRemotePeers st.peerURLs).2 = none)
    (hm : 0 < (env.GetClusterFromRemotePeers st.peerURLs).1.Members.length)
    (hf : persistenceFault env st.clusterfile
      (env.GetClusterFromRemotePeers st.peerURLs).1 = true) :
    (uf env st).st.clientURLs = (env.GetClusterFromRemotePeers st.peerURLs).1.ClientURLs ∧
      (uf env st).ret = (env.GetClusterFromRemotePeers st.peerURLs).1.ClientURLs ∧
      (uf env st).st.peerURLs = st.peerURLs := by
  rcases hg : env.GetClusterFromRemotePeers st.peerURLs with ⟨gcls, err⟩
  rw [hg] at hq hm hf
  simp only at hq hm hf
  subst hq
  have hne : ¬ gcls.Members.length = 0 := by omega
  unfold persistenceFault at hf
  unfold uf
  simp only [hg, hne, if_false]
  rcases hj : env.jsonMarshal gcls.PeerURLs with ⟨b, jerr⟩
  rw [hj] at hf
  cases jerr with
  | some e => simp
  | none =>
    simp only at hf ⊢
    cases hw : env.WriteFile (st.clusterfile ++ ".bak") b with
    | some e => simp
    | none =>
      rw [hw] at hf
      simp only at hf
      cases hr : env.Rename (st.clusterfile ++ ".bak") st.clusterfile with
      | some e => simp
      | none =>
        rw [hr] at hf
        simp at hf

theorem uf_persistence_fault_witness :
    (renameFailsEnv.GetClusterFromRemotePeers sampleProxyState.peerURLs).2 = none ∧
      0 < (renameFailsEnv.GetClusterFromRemotePeers sampleProxyState.peerURLs).1.Members.length ∧
      persistenceFault renameFailsEnv sampleProxyState.clusterfile
        (renameFailsEnv.GetClusterFromRemotePeers sampleProxyState.peerURLs).1 = true ∧
      (uf renameFailsEnv sampleProxyState).st.clientURLs =
        ["http://10.0.0.1:2379", "http://10.0.0.2:2379"] ∧
      (uf renameFailsEnv sampleProxyState).ret =
        ["http://10.0.0.1:2379", "http://10.0.0.2:2379"] ∧
      (uf renameFailsEnv sampleProxyState).st.peerURLs = ["http://10.0.0.1:2380"] :=
  ⟨rfl, by decide, rfl,
    uf_persistence_fault renameFailsEnv sampleProxyState rfl (by decide) rfl⟩

/-- C5: with two client listen addresses of which the second fails to open,
`startProxy` returns the error while the first listener is open and being
served: its trace closes no listener. -/
theorem startProxy_leaves_first_listener_open :
    (startProxy secondListenerFailsEnv twoClientConfig).err =
        some (Error.other "listen tcp 127.0.0.1:4001: bind: address already in use") ∧
      listens (startProxy secondListenerFailsEnv twoClientConfig).events =
        [{ role := Role.proxy, idx := 0, url := { Scheme := "http", Host := "127.0.0.1:2379" } }] ∧
      closes (startProxy secondListenerFailsEnv twoClientConfig).events = [] ∧
      stillOpen (startProxy secondListenerFailsEnv twoClientConfig).events [] =
        [{ role := Role.proxy, idx := 0, url := { Scheme := "http", Host := "127.0.0.1:2379" } }] ∧
      Event.serve { role := Role.proxy, idx := 0,
                    url := { Scheme := "http", Host := "127.0.0.1:2379" } } ∈
        (startProxy secondListenerFailsEnv twoClientConfig).events := by
  decide

/-- C7: when `startEtcd` ends with `discovery.ErrDuplicateID`, `Main2` logs
the four lines of guidance and then, instead of exiting, calls
`HandleInterrupts` and waits on the nil `stopped` channel. -/
theorem Main2_duplicateID_does_not_exit :
    (Main2 duplicateIDEnv [] Proc.init).1 = Outcome.waiting none ∧
      (Main2 duplicateIDEnv [] Proc.init).1 ≠ Outcome.exit 1 ∧
      (Main2 duplicateIDEnv [] Proc.init).2.calls = [Fn.startEtcd] ∧
      (startEtcd duplicateIDEnv discoveryConfig (Osutil.Registry.init Handler)).err =
        some Error.ErrDuplicateID ∧
      (Main2 duplicateIDEnv [] Proc.init).2.sig = Osutil.SigPc.waiting ∧
      (Main2 duplicateIDEnv [] Proc.init).2.reg.handling = true ∧
      (∀ ev ∈ duplicateIDGuidance discoveryConfig,
        ev ∈ (Main2 duplicateIDEnv [] Proc.init).2.trace) := by
  decide

end Etcdmain

namespace Etcdmain

theorem adjustConfig_flags (env : Env) (cfg : config) :
    (adjustConfig env cfg).1.isProxy = cfg.isProxy ∧
      (adjustConfig env cfg).1.shouldFallbackToProxy = cfg.shouldFallbackToProxy := by
  simp only [adjustConfig]
  constructor <;> (split_ifs <;> rfl)

theorem finish_calls (env : Env) (s : Started) : (finish env s).2.calls = s.proc.calls := by
  unfold finish
  split <;> simp [handleAndWait]

theorem startUp_calls (env : Env) (cfg : config) (which : dirType) (p : Proc) :
    (startUp env cfg which p).proc.calls =
      p.calls ++
        (if cfg.isProxy = false ∧ which ≠ dirProxy then [Fn.startEtcd] else []) ++
        (if cfg.isProxy = true ∨ which = dirProxy ∨
            ((startEtcd env cfg p.reg).err = some Error.ErrFullCluster ∧
              cfg.shouldFallbackToProxy = true)
          then [Fn.startProxy] else []) := by
  unfold startUp
  by_cases h1 : cfg.isProxy = true
  · simp [h1]
  · have h1f : cfg.isProxy = false := by simpa using h1
    by_cases h2 : which = dirProxy
    · simp [h1f, h2]
    · by_cases h3 : (startEtcd env cfg p.reg).err = some Error.ErrFullCluster ∧
          cfg.shouldFallbackToProxy = true
      · simp [h1f, h2, h3]
      · simp only [h1f, h2, decide_False, Bool.or_self, if_true, h3, if_false]
        simp [h2]

/-- C6: in a run of `Main2` whose flags parse and whose data dir is classified
as `which`, `startProxy` is called iff the configuration requests proxy mode,
or `which` is `dirProxy`, or `startEtcd` failed with `ErrFullCluster` while the
configuration permits falling back to proxy; `startEtcd` is called iff the
configuration does not request proxy mode and `which` is not `dirProxy`; and
after any other error of `startEtcd`, `startProxy` is not called. -/
theorem Main2_path_selection (env : Env) (args : List String) (p : Proc) (cfg : config)
    (which : dirType) (evs : List Event)
    (hp : env.Parse args = (cfg, none))
    (hd : identifyDataDirOrDie (env.ReadDir (adjustConfig env cfg).1.dir)
      (adjustConfig env cfg).1.dir = (evs, OrDie.ret which))
    (hc : p.calls = []) :
    (Fn.startProxy ∈ (Main2 env args p).2.calls ↔
        cfg.isProxy = true ∨ which = dirProxy ∨
          ((startEtcd env (adjustConfig env cfg).1 p.reg).err = some Error.ErrFullCluster ∧
            cfg.shouldFallbackToProxy = true)) ∧
      (Fn.startEtcd ∈ (Main2 env args p).2.calls ↔ cfg.isProxy = false ∧ which ≠ dirProxy) ∧
      (∀ e : Error, Fn.startEtcd ∈ (Main2 env args p).2.calls →
        (startEtcd env (adjustConfig env cfg).1 p.reg).err = some e →
        e ≠ Error.ErrFullCluster → Fn.startProxy ∉ (Main2 env args p).2.calls) := by
  obtain ⟨hip, hfb⟩ := adjustConfig_flags env cfg
  have hcalls : (Main2 env args p).2.calls =
      (if cfg.isProxy = false ∧ which ≠ dirProxy then [Fn.startEtcd] else []) ++
        (if cfg.isProxy = true ∨ which = dirProxy ∨
            ((startEtcd env (adjustConfig env cfg).1 p.reg).err = some Error.ErrFullCluster ∧
              cfg.shouldFallbackToProxy = true)
          then [Fn.startProxy] else []) := by
    unfold Main2
    simp only [hp, hd]
    rw [finish_calls, startUp_calls, hip, hfb]
    simp [hc]
  rw [hcalls]
  refine ⟨?_, ?_, ?_⟩
  · by_cases a : cfg.isProxy = false ∧ which ≠ dirProxy <;>
      by_cases b : cfg.isProxy = true ∨ which = dirProxy ∨
        ((startEtcd env (adjustConfig env cfg).1 p.reg).err = some Error.ErrFullCluster ∧
          cfg.shouldFallbackToProxy = true) <;> simp [a, b]
  · by_cases a : cfg.isProxy = false ∧ which ≠ dirProxy <;>
      by_cases b : cfg.isProxy = true ∨ which = dirProxy ∨
        ((startEtcd env (adjustConfig env cfg).1 p.reg).err = some Error.ErrFullCluster ∧
          cfg.shouldFallbackToProxy = true) <;> simp [a, b]
  · intro e hmem herr hne
    by_cases a : cfg.isProxy = false ∧ which ≠ dirProxy
    · have b : ¬ (cfg.isProxy = true ∨ which = dirProxy ∨
          ((startEtcd env (adjustConfig env cfg).1 p.reg).err = some Error.ErrFullCluster ∧
            cfg.shouldFallbackToProxy = true)) := by
        rintro (h | h | ⟨h, _⟩)
        · rw [a.1] at h
          exact Bool.noConfusion h
        · exact a.2 h
        · rw [herr] at h
          exact hne (Option.some.inj h)
      rw [if_pos a, if_neg b]
      simp
    · rw [if_neg a] at hmem
      by_cases b : cfg.isProxy = true ∨ which = dirProxy ∨
        ((startEtcd env (adjustConfig env cfg).1 p.reg).err = some Error.ErrFullCluster ∧
          cfg.shouldFallbackToProxy = true)
      · rw [if_pos b] at hmem
        simp at hmem
      · rw [if_neg b] at hmem
        simp at hmem

theorem Main2_path_selection_witness :
    sampleEnv.Parse [] = (sampleConfig, none) ∧
      identifyDataDirOrDie (sampleEnv.ReadDir (adjustConfig sampleEnv sampleConfig).1.dir)
        (adjustConfig sampleEnv sampleConfig).1.dir = ([], OrDie.ret dirEmpty) ∧
      Proc.init.calls = [] ∧
      ((Fn.startProxy ∈ (Main2 sampleEnv [] Proc.init).2.calls ↔
          sampleConfig.isProxy = true ∨ dirEmpty = dirProxy ∨
            ((startEtcd sampleEnv (adjustConfig sampleEnv sampleConfig).1 Proc.init.reg).err =
                some Error.ErrFullCluster ∧
              sampleConfig.shouldFallbackToProxy = true)) ∧
        (Fn.startEtcd ∈ (Main2 sampleEnv [] Proc.init).2.calls ↔
          sampleConfig.isProxy = false ∧ dirEmpty ≠ dirProxy) ∧
        (∀ e : Error, Fn.startEtcd ∈ (Main2 sampleEnv [] Proc.init).2.calls →
          (startEtcd sampleEnv (adjustConfig sampleEnv sampleConfig).1 Proc.init.reg).err =
            some e →
          e ≠ Error.ErrFullCluster → Fn.startProxy ∉ (Main2 sampleEnv [] Proc.init).2.calls)) :=
  ⟨rfl, by decide, rfl,
    Main2_path_selection sampleEnv [] Proc.init sampleConfig dirEmpty [] rfl (by decide) rfl⟩

end Etcdmain

namespace Etcdmain

theorem listens_append (a b : List Event) : listens (a ++ b) = listens a ++ listens b := by
  induction a with
  | nil => rfl
  | cons e t ih => cases e <;> simp [listens, ih]

theorem closes_append (a b : List Event) : closes (a ++ b) = closes a ++ closes b := by
  induction a with
  | nil => rfl
  | cons e t ih => cases e <;> simp [closes, ih]

theorem stillOpen_append (a b : List Event) (o : List Listener) :
    stillOpen (a ++ b) o = stillOpen b (stillOpen a o) := by
  induction a generalizing o with
  | nil => rfl
  | cons e t ih => cases e <;> simp [stillOpen, ih]

theorem stillOpen_no_closes (evs : List Event) (o : List Listener) (h : closes evs = []) :
    stillOpen evs o = o ++ listens evs := by
  induction evs generalizing o with
  | nil => simp [stillOpen, listens]
  | cons e t ih =>
    cases e with
    | close l => simp [closes] at h
    | listen l =>
      have ht : closes t = [] := by simpa [closes] using h
      simp [stillOpen, listens, ih _ ht]
    | log f a =>
      have ht : closes t = [] := by simpa [closes] using h
      simp [stillOpen, listens, ih _ ht]
    | serve l =>
      have ht : closes t = [] := by simpa [closes] using h
      simp [stillOpen, listens, ih _ ht]
    | serverStart =>
      have ht : closes t = [] := by simpa [closes] using h
      simp [stillOpen, listens, ih _ ht]

theorem runDefers_some (e : Error) (ds : List Listener) (evs : List Event) :
    listens (runDefers (some e) ds evs) = listens evs ∧
      closes (runDefers (some e) ds evs) = closes evs ++ ds ∧
      ∀ o, stillOpen (runDefers (some e) ds evs) o =
        (stillOpen evs o).filter (fun x => decide (x ∉ ds)) := by
  induction ds generalizing evs with
  | nil => simp [runDefers]
  | cons l ds ih =>
    have hstep : runDefers (some e) (l :: ds) evs =
        runDefers (some e) ds
          (evs ++ [Event.close l, Event.log (stopMsg l.role) [l.url.toStr]]) := by
      simp [runDefers]
    obtain ⟨h1, h2, h3⟩ :=
      ih (evs ++ [Event.close l, Event.log (stopMsg l.role) [l.url.toStr]])
    rw [hstep]
    refine ⟨?_, ?_, ?_⟩
    · rw [h1, listens_append]
      simp [listens]
    · rw [h2, closes_append]
      simp [closes]
    · intro o
      rw [h3, stillOpen_append]
      simp only [stillOpen, List.filter_filter]
      apply List.filter_congr
      intro x _
      by_cases hx : x = l <;> simp [hx]

theorem rollback_core (e : Error) (L : List Listener) (evs : List Event)
    (hl : listens evs = L) (hc : closes evs = []) (hn : L.Nodup) :
    (∀ l ∈ listens (runDefers (some e) L.reverse evs),
        (closes (runDefers (some e) L.reverse evs)).count l = 1) ∧
      closes (runDefers (some e) L.reverse evs) =
        (listens (runDefers (some e) L.reverse evs)).reverse ∧
      stillOpen (runDefers (some e) L.reverse evs) [] = [] := by
  obtain ⟨h1, h2, h3⟩ := runDefers_some e L.reverse evs
  rw [h1, h2, h3, hl, hc, stillOpen_no_closes evs [] hc, hl]
  refine ⟨?_, by simp, ?_⟩
  · intro l hmem
    simp only [List.nil_append, List.count_reverse]
    exact List.count_eq_one_of_mem hn hmem
  · simp [List.filter_eq_nil_iff]

theorem openListeners_inv (role : Role) (open1 : Nat → URL → Option Error) (us : List URL)
    (i : Nat) (st : ListenerLoop) :
    ∃ new : List Listener,
      (openListeners role open1 us i st).defers = new.reverse ++ st.defers ∧
      listens (openListeners role open1 us i st).events = listens st.events ++ new ∧
      closes (openListeners role open1 us i st).events = closes st.events ∧
      (∀ l ∈ new, l.role = role ∧ i ≤ l.idx) ∧ new.Nodup := by
  induction us generalizing i st with
  | nil => exact ⟨[], by simp [openListeners]⟩
  | cons u us ih =>
    cases ho : open1 i u with
    | some e => exact ⟨[], by simp [openListeners, ho]⟩
    | none =>
      obtain ⟨new, hd, hl, hc, hr, hn⟩ := ih (i + 1)
        { err := none, lns := st.lns ++ [{ role := role, idx := i, url := u }],
          defers := { role := role, idx := i, url := u } :: st.defers,
          events := st.events ++ [Event.listen { role := role, idx := i, url := u },
            Event.log (listenMsg role) [u.toStr]] }
      refine ⟨{ role := role, idx := i, url := u } :: new, ?_, ?_, ?_, ?_, ?_⟩
      · simp [openListeners, ho, hd]
      · simp [openListeners, ho, hl, listens_append, listens]
      · simp [openListeners, ho, hc, closes_append, closes]
      · intro l hmem
        rcases List.mem_cons.mp hmem with h | h
        · subst h
          exact ⟨rfl, Nat.le_refl _⟩
        · exact ⟨(hr l h).1, by have := (hr l h).2; omega⟩
      · refine List.nodup_cons.mpr ⟨?_, hn⟩
        intro hmem
        have := (hr _ hmem).2
        simp at this

theorem tlsLog_quiet (fmt : String) (info : TLSInfo) :
    listens (tlsLog fmt info) = [] ∧ closes (tlsLog fmt info) = [] := by
  unfold tlsLog
  split_ifs <;> simp [listens, closes]

theorem startEtcdServer_failure_shape (env : Env) (cfg : config) (r : PeerURLsResult)
    (reg : Osutil.Registry Handler) (ps cs : ListenerLoop) (L : List Listener)
    (hd : cs.defers = L.reverse)
    (h : (startEtcdServer env cfg r reg ps cs).err ≠ none) :
    ∃ e : Error, (startEtcdServer env cfg r reg ps cs).events =
      runDefers (some e) L.reverse cs.events := by
  unfold startEtcdServer at h ⊢
  cases hs : env.NewServer (serverConfig cfg r.urlsmap r.token) with
  | some e => exact ⟨e, by simp [hd]⟩
  | none =>
    rw [hs] at h
    exact absurd rfl h

theorem startEtcdClients_failure_shape (env : Env) (cfg : config) (r : PeerURLsResult)
    (reg : Osutil.Registry Handler) (ps : ListenerLoop) (P : List Listener)
    (hd : ps.defers = P.reverse) (hl : listens ps.events = P) (hc : closes ps.events = [])
    (hn : P.Nodup) (hr : ∀ l ∈ P, l.role = Role.peer)
    (h : (startEtcdClients env cfg r reg ps).err ≠ none) :
    ∃ (e : Error) (L : List Listener) (evs : List Event),
      (startEtcdClients env cfg r reg ps).events = runDefers (some e) L.reverse evs ∧
      listens evs = L ∧ closes evs = [] ∧ L.Nodup := by
  obtain ⟨newC, hdC, hlC, hcC, hrC, hnC⟩ :=
    openListeners_inv Role.client env.NewKeepAliveListener cfg.lcurls 0
      { err := none, lns := [], defers := ps.defers,
        events := ps.events ++ tlsLog "clientTLS: %s" cfg.clientTLSInfo }
  obtain ⟨hq1, hq2⟩ := tlsLog_quiet "clientTLS: %s" cfg.clientTLSInfo
  simp only [listens_append, closes_append, hq1, hq2, hl, hc, List.append_nil] at hdC hlC hcC
  have hdC2 : (openListeners Role.client env.NewKeepAliveListener cfg.lcurls 0
      { err := none, lns := [], defers := ps.defers,
        events := ps.events ++ tlsLog "clientTLS: %s" cfg.clientTLSInfo }).defers =
      (P ++ newC).reverse := by
    rw [hdC, hd]
    simp
  have hnPC : (P ++ newC).Nodup := by
    refine List.nodup_append.mpr ⟨hn, hnC, ?_⟩
    intro l h1 h2
    have a := hr l h1
    have b := (hrC l h2).1
    rw [a] at b
    exact Role.noConfusion b
  unfold startEtcdClients at h ⊢
  simp only [] at h ⊢
  cases hce : (openListeners Role.client env.NewKeepAliveListener cfg.lcurls 0
      { err := none, lns := [], defers := ps.defers,
        events := ps.events ++ tlsLog "clientTLS: %s" cfg.clientTLSInfo }).err with
  | some e =>
    refine ⟨e, P ++ newC, _, ?_, hlC, hcC, hnPC⟩
    simp only [hce, hdC2]
  | none =>
    simp only [hce] at h ⊢
    obtain ⟨e, he⟩ := startEtcdServer_failure_shape env cfg r reg ps _ (P ++ newC) hdC2 h
    exact ⟨e, P ++ newC, _, he, hlC, hcC, hnPC⟩

theorem startEtcdPeers_failure_shape (env : Env) (cfg : config) (r : PeerURLsResult)
    (reg : Osutil.Registry Handler)
    (h : (startEtcdPeers env cfg r reg).err ≠ none) :
    ∃ (e : Error) (L : List Listener) (evs : List Event),
      (startEtcdPeers env cfg r reg).events = runDefers (some e) L.reverse evs ∧
      listens evs = L ∧ closes evs = [] ∧ L.Nodup := by
  obtain ⟨newP, hdP, hlP, hcP, hrP, hnP⟩ :=
    openListeners_inv Role.peer env.NewTimeoutListener cfg.lpurls 0
      { err := none, lns := [], defers := [], events := tlsLog "peerTLS: %s" cfg.peerTLSInfo }
  obtain ⟨hq1, hq2⟩ := tlsLog_quiet "peerTLS: %s" cfg.peerTLSInfo
  simp only [hq1, hq2, List.append_nil, List.nil_append] at hdP hlP hcP
  unfold startEtcdPeers at h ⊢
  simp only [] at h ⊢
  cases hpe : (openListeners Role.peer env.NewTimeoutListener cfg.lpurls 0
      { err := none, lns := [], defers := [],
        events := tlsLog "peerTLS: %s" cfg.peerTLSInfo }).err with
  | some e =>
    refine ⟨e, newP, _, ?_, hlP, hcP, hnP⟩
    simp only [hpe, hdP]
  | none =>
    simp only [hpe] at h ⊢
    exact startEtcdClients_failure_shape env cfg r reg _ newP hdP hlP hcP hnP
      (fun l hm => (hrP l hm).1) h

theorem startEtcd_failure_shape (env : Env) (cfg : config) (reg : Osutil.Registry Handler)
    (h : (startEtcd env cfg reg).err ≠ none) :
    ∃ (e : Error) (L : List Listener) (evs : List Event),
      (startEtcd env cfg reg).events = runDefers (some e) L.reverse evs ∧
      listens evs = L ∧ closes evs = [] ∧ L.Nodup := by
  unfold startEtcd at h ⊢
  simp only [] at h ⊢
  cases h1 : (getPeerURLsMapAndToken env cfg).err with
  | some e =>
    exact ⟨e, [], [], by simp [runDefers], rfl, rfl, List.nodup_nil⟩
  | none =>
    simp only [h1] at h ⊢
    cases h2 : env.NewTimeoutTransport cfg.peerTLSInfo with
    | some e => exact ⟨e, [], [], by simp [runDefers], rfl, rfl, List.nodup_nil⟩
    | none =>
      simp only [h2] at h ⊢
      exact startEtcdPeers_failure_shape env cfg _ reg h

/-- C4: whenever `startEtcd` returns an error, every listener its trace opens
is closed there exactly once, the listeners are closed in the reverse of the
order they were opened in, and replaying the trace leaves no listener open. -/
theorem startEtcd_rollback (env : Env) (cfg : config) (reg : Osutil.Registry Handler)
    (h : (startEtcd env cfg reg).err ≠ none) :
    (∀ l ∈ listens (startEtcd env cfg reg).events,
        (closes (startEtcd env cfg reg).events).count l = 1) ∧
      closes (startEtcd env cfg reg).events = (listens (startEtcd env cfg reg).events).reverse ∧
      stillOpen (startEtcd env cfg reg).events [] = [] := by
  obtain ⟨e, L, evs, hev, hl, hc, hn⟩ := startEtcd_failure_shape env cfg reg h
  rw [hev]
  exact rollback_core e L evs hl hc hn

theorem startEtcd_rollback_witness :
    (startEtcd secondPeerFailsEnv threePeerConfig (Osutil.Registry.init Handler)).err ≠ none ∧
      listens (startEtcd secondPeerFailsEnv threePeerConfig
          (Osutil.Registry.init Handler)).events =
        [{ role := Role.peer, idx := 0, url := { Scheme := "http", Host := "10.0.0.1:2380" } }] ∧
      ((∀ l ∈ listens (startEtcd secondPeerFailsEnv threePeerConfig
            (Osutil.Registry.init Handler)).events,
          (closes (startEtcd secondPeerFailsEnv threePeerConfig
            (Osutil.Registry.init Handler)).events).count l = 1) ∧
        closes (startEtcd secondPeerFailsEnv threePeerConfig
            (Osutil.Registry.init Handler)).events =
          (listens (startEtcd secondPeerFailsEnv threePeerConfig
            (Osutil.Registry.init Handler)).events).reverse ∧
        stillOpen (startEtcd secondPeerFailsEnv threePeerConfig
          (Osutil.Registry.init Handler)).events [] = []) :=
  ⟨by decide, by decide,
    startEtcd_rollback secondPeerFailsEnv threePeerConfig (Osutil.Registry.init Handler)
      (by decide)⟩

end Etcdmain
